import Mathlib

/-!
Verification of the interval-concordance engine of the bioutils repository
(`bin/cnv_utils/cnv_concordance_checker.py` and the threshold loop of
`bin/cnv_utils/cnv_trio_inheritance.py`), as a shallow embedding in Lean.

Coordinates are integers; the SQL comparison `overlap_len >= 0.5 * len` is
exact rational arithmetic (all quantities involved are integers and `0.5`
is exactly representable), embedded here with `mkRat len 2 ≤ overlap_len`
over `ℚ`, which is the same rational inequality.
-/

namespace CNV

/-- One row of a CNV call table, as consumed by `cnv_concordance_checker.py`.
The mandatory columns are `SampleID`, `Chr`, `Start`, `End`, `Type`
(`Type'` here, since `Type` is reserved in Lean); `Gene_ID` is optional and
a per-row missing value is `none`.  `rowid` is the identifier appended by
`add_row_ids` (`df["rowid"] = range(len(df))`). -/
structure Rec where
  rowid : Nat
  SampleID : String
  Chr : String
  Start : Int
  End : Int
  Type' : String
  Gene_ID : Option String
deriving DecidableEq

/-- `GREATEST(df_a.Start, df_b.Start)` in `flag_overlaps`. -/
def overlap_start (a b : Rec) : Int := max a.Start b.Start

/-- `LEAST(df_a.End, df_b.End)` in `flag_overlaps`. -/
def overlap_end (a b : Rec) : Int := min a.End b.End

/-- `overlap_len` in `flag_overlaps`: `LEAST(End) - GREATEST(Start)`. -/
def overlap_len (a b : Rec) : Int := overlap_end a b - overlap_start a b

/-- `len_a` in `flag_overlaps`: `df_a.End - df_a.Start`. -/
def len_a (a : Rec) : Int := a.End - a.Start

/-- `len_b` in `flag_overlaps`: `df_b.End - df_b.Start`. -/
def len_b (b : Rec) : Int := b.End - b.Start

/-- The `ON` clause of the join in `flag_overlaps`: equal `Chr`, `SampleID`
and `Type`, plus `df_a.End > df_b.Start AND df_a.Start < df_b.End`. -/
def joinOn (a b : Rec) : Bool :=
  (a.Chr == b.Chr) && (a.SampleID == b.SampleID) && (a.Type' == b.Type') &&
  decide (b.Start < a.End) && decide (a.Start < b.End)

/-- The relational product underlying `FROM df_a JOIN df_b`. -/
def crossJoin (l₁ l₂ : List Rec) : List (Rec × Rec) :=
  l₁.flatMap (fun a => l₂.map (fun b => (a, b)))

/-- The CTE `overlaps_df` of `flag_overlaps`: all pairs satisfying the join
condition. -/
def overlaps_df (df_a df_b : List Rec) : List (Rec × Rec) :=
  (crossJoin df_a df_b).filter (fun p => joinOn p.1 p.2)

/-- `reciprocal_overlap_flag` of `flag_overlaps`:
`overlap_len >= 0.5 * len_a AND overlap_len >= 0.5 * len_b`.  The quantity
`0.5 * len` is the exact rational `len / 2`, written `mkRat len 2`. -/
def reciprocal_overlap_flag (a b : Rec) : Bool :=
  decide (mkRat (len_a a) 2 ≤ Rat.ofInt (overlap_len a b)) &&
  decide (mkRat (len_b b) 2 ≤ Rat.ofInt (overlap_len a b))

/-- The result rows of the `flag_overlaps` query: the join rows surviving
`WHERE overlap_len > 0`, each projected to
`(id_a, id_b, reciprocal_overlap_flag)`. -/
def flag_overlaps (df_a df_b : List Rec) : List (Nat × Nat × Bool) :=
  ((overlaps_df df_a df_b).filter (fun p => decide (0 < overlap_len p.1 p.2))).map
    (fun p => (p.1.rowid, p.2.rowid, reciprocal_overlap_flag p.1 p.2))

/-- The combined condition for a pair to appear in the `flag_overlaps`
result: the join condition together with `overlap_len > 0`. -/
def candidate (a b : Rec) : Bool :=
  joinOn a b && decide (0 < overlap_len a b)

/-- The per-record `CNV_based_overlap` value of collection A, per `main`:
initialised to 0, set to 1 exactly on the rowids `id_a` of result rows with
`reciprocal_overlap_flag == 1`. -/
def CNV_based_overlap_A (df_a df_b : List Rec) (a : Rec) : Nat :=
  if (flag_overlaps df_a df_b).any (fun r => r.2.2 && (r.1 == a.rowid)) then 1 else 0

/-- The per-record `CNV_based_overlap` value of collection B, per `main`
(same pair set, keyed by `id_b`). -/
def CNV_based_overlap_B (df_a df_b : List Rec) (b : Rec) : Nat :=
  if (flag_overlaps df_a df_b).any (fun r => r.2.2 && (r.2.1 == b.rowid)) then 1 else 0

/-- The `CNV_based_overlap` column of collection A. -/
def cnvFlagsA (df_a df_b : List Rec) : List Nat :=
  df_a.map (CNV_based_overlap_A df_a df_b)

/-- The `CNV_based_overlap` column of collection B. -/
def cnvFlagsB (df_a df_b : List Rec) : List Nat :=
  df_b.map (CNV_based_overlap_B df_a df_b)

/-- SQL equality on a nullable column: `NULL = x` is never true. -/
def sqlEq : Option String → Option String → Bool
  | some x, some y => x == y
  | _, _ => false

/-- The `ON` clause of `flag_gene_matches`: equal `SampleID`, `Type` and
`Gene_ID` (SQL equality, so a `NULL` gene never matches). -/
def geneJoin (a b : Rec) : Bool :=
  (a.SampleID == b.SampleID) && (a.Type' == b.Type') && sqlEq a.Gene_ID b.Gene_ID

/-- The result rows of the `flag_gene_matches` LEFT JOIN: for each row of
`table_a`, one `(rowid, 0)` row when no row of `table_b` matches, and one
`(rowid, 1)` row per match otherwise. -/
def flag_gene_matches (table_a table_b : List Rec) : List (Nat × Nat) :=
  table_a.flatMap (fun a =>
    if (table_b.filter (geneJoin a)).isEmpty then [(a.rowid, 0)]
    else (table_b.filter (geneJoin a)).map (fun _ => (a.rowid, 1)))

/-- The per-record `gene_based_overlap` value of collection A when the
`Gene_ID` column is present in both inputs, per `main`: initialised to 0,
set to 1 on rowids with a flag-1 result row. -/
def gene_based_overlap_A (df_a df_b : List Rec) (a : Rec) : Nat :=
  if (flag_gene_matches df_a df_b).any (fun r => (r.2 == 1) && (r.1 == a.rowid)) then 1 else 0

/-- The per-record `gene_based_overlap` value of collection B (the code
calls `flag_gene_matches` with the tables swapped). -/
def gene_based_overlap_B (df_a df_b : List Rec) (b : Rec) : Nat :=
  if (flag_gene_matches df_b df_a).any (fun r => (r.2 == 1) && (r.1 == b.rowid)) then 1 else 0

/-- The `gene_based_overlap` value of a record of A as `main` assigns it:
an integer when `Gene_ID` is a column of both inputs, `pd.NA` (`none`)
otherwise. -/
def gene_value_A (df_a df_b : List Rec) (hasA hasB : Bool) (a : Rec) : Option Nat :=
  if hasA && hasB then some (gene_based_overlap_A df_a df_b a) else none

/-- The `gene_based_overlap` value of a record of B as `main` assigns it. -/
def gene_value_B (df_a df_b : List Rec) (hasA hasB : Bool) (b : Rec) : Option Nat :=
  if hasA && hasB then some (gene_based_overlap_B df_a df_b b) else none

/-- The `gene_based_overlap` column of collection A. -/
def geneFlagsA (df_a df_b : List Rec) (hasA hasB : Bool) : List (Option Nat) :=
  df_a.map (gene_value_A df_a df_b hasA hasB)

/-- The `gene_based_overlap` column of collection B. -/
def geneFlagsB (df_a df_b : List Rec) (hasA hasB : Bool) : List (Option Nat) :=
  df_b.map (gene_value_B df_a df_b hasA hasB)

/-- What `print_summary` reports for one file: the record total, the
`CNV_based_overlap` sum, and — only when `gene_based_overlap` has at least
one non-NA value — the gene-overlap sum and the count of records with both
flags equal to 1. -/
structure FileSummary where
  total : Nat
  ovlp : Nat
  geneSection : Option (Nat × Nat)
deriving DecidableEq

/-- The summary `print_summary` computes for one file (`total = len(df)`,
`ovlp = df["CNV_based_overlap"].sum()`; the gene lines are printed only if
`df["gene_based_overlap"].notna().any()`, and a pandas sum skips NA). -/
def print_summary_one (df : List Rec) (cnv : List Nat) (gene : List (Option Nat)) :
    FileSummary :=
  { total := df.length
    ovlp := cnv.sum
    geneSection :=
      if gene.any (fun g => g.isSome) then
        some ((gene.filterMap id).sum,
              ((cnv.zip gene).filter (fun p => (p.1 == 1) && (p.2 == some 1))).length)
      else none }

/-- The observable outcome of `main` on two loaded collections: both flag
columns of both files, and both summaries. -/
structure MainResult where
  flagsA : List Nat
  flagsB : List Nat
  geneA : List (Option Nat)
  geneB : List (Option Nat)
  summaryA : FileSummary
  summaryB : FileSummary
deriving DecidableEq

/-- The record-level effect of `main`: compute the reciprocal-overlap flags
for both collections, the gene flags (or all-NA columns when `Gene_ID` is
missing from either input), and both summaries. -/
def mainRun (df_a df_b : List Rec) (hasA hasB : Bool) : MainResult :=
  { flagsA := cnvFlagsA df_a df_b
    flagsB := cnvFlagsB df_a df_b
    geneA := geneFlagsA df_a df_b hasA hasB
    geneB := geneFlagsB df_a df_b hasA hasB
    summaryA := print_summary_one df_a (cnvFlagsA df_a df_b) (geneFlagsA df_a df_b hasA hasB)
    summaryB := print_summary_one df_b (cnvFlagsB df_a df_b) (geneFlagsB df_a df_b hasA hasB) }

/-- A cell of a pandas DataFrame column, as far as this program observes it:
a string, an integer, or a missing value (`pd.NA`). -/
inductive Cell
  | str : String → Cell
  | int : Int → Cell
  | na : Cell
deriving DecidableEq

/-- A DataFrame, column-ordered: each column is a name with its list of
values (one per row, in row order). -/
abbrev Frame := List (String × List Cell)

/-- Column assignment `df[name] = vals` in pandas: an existing column is
replaced in place, a new one is appended at the end. -/
def setCol (df : Frame) (name : String) (vals : List Cell) : Frame :=
  if df.any (fun c => c.1 == name) then
    df.map (fun c => if c.1 == name then (name, vals) else c)
  else df ++ [(name, vals)]

/-- `df.drop(columns=[name])`. -/
def dropCol (df : Frame) (name : String) : Frame :=
  df.filter (fun c => !(c.1 == name))

/-- An integer flag as a DataFrame cell. -/
def cellOfNat (k : Nat) : Cell := Cell.int (Int.ofNat k)

/-- A tri-state gene flag as a DataFrame cell (`none` is `pd.NA`). -/
def cellOfOptNat : Option Nat → Cell
  | some k => Cell.int (Int.ofNat k)
  | none => Cell.na

/-- The column-level effect of `main` on file A's frame: `add_row_ids`
appends (or overwrites) `rowid`, then the `CNV_based_overlap` and
`gene_based_overlap` columns are assigned, then `rowid` is dropped before
saving.  `rows_a`/`rows_b` are the typed views of the two inputs. -/
def annotate_frame (df : Frame) (rows_a rows_b : List Rec) (hasA hasB : Bool) : Frame :=
  dropCol
    (setCol
      (setCol
        (setCol df "rowid" ((List.range rows_a.length).map (fun i => Cell.int (Int.ofNat i))))
        "CNV_based_overlap" ((cnvFlagsA rows_a rows_b).map cellOfNat))
      "gene_based_overlap" ((geneFlagsA rows_a rows_b hasA hasB).map cellOfOptNat))
    "rowid"

/-- One line of the BED files exchanged with bedtools by
`cnv_trio_inheritance.py`: a (composite) chromosome label and the interval
bounds. -/
structure BedRec where
  Chr : String
  Start : Int
  End : Int
deriving DecidableEq

/-- Overlap length of two BED intervals. -/
def bedOverlap_len (a b : BedRec) : Int := min a.End b.End - max a.Start b.Start

/-- Modelled from the spec: the qualifying test of the external
`bedtools intersect -f ovlap -r` collaborator, which is not part of this
repository.  Per the spec it must reproduce the reciprocal semantics: the
records must share the chromosome label, overlap strictly, and the overlap
must be at least the fraction `f` of both lengths.  `f * len ≤ ovl` over
`ℚ` is written by cross-multiplying with the (positive) denominator of
`f`. -/
def bed_reciprocal (f : ℚ) (a b : BedRec) : Bool :=
  (a.Chr == b.Chr) && decide (0 < bedOverlap_len a b) &&
  decide (f.num * (a.End - a.Start) ≤ (f.den : Int) * bedOverlap_len a b) &&
  decide (f.num * (b.End - b.Start) ≤ (f.den : Int) * bedOverlap_len a b)

/-- Modelled from the spec: `bedtools intersect -a child -b parents -f f -r
-wa` reports the `-a` records with at least one qualifying `-b` partner
(membership of the output is later tested per record, so reporting each
qualifying record once is equivalent). -/
def bedtools_intersect (f : ℚ) (A B : List BedRec) : List BedRec :=
  A.filter (fun a => B.any (bed_reciprocal f a))

/-- The `ID` column built by `cnv_trio_inheritance.py`: `Chr_Start_End`. -/
def bedID (r : BedRec) : String :=
  r.Chr ++ "_" ++ toString r.Start ++ "_" ++ toString r.End

/-- The `observed_in_parent_ovlap{f}` column: per child record, whether its
`ID` occurs among the IDs of the intersect output at fraction `f`. -/
def observed_in_parent_ovlap (f : ℚ) (child parents : List BedRec) : List Bool :=
  child.map (fun c => ((bedtools_intersect f child parents).map bedID).contains (bedID c))

/-- The `for ovlap in OVERLAPS` loop of `cnv_trio_inheritance.py`: one
independent flag column per requested fraction, each computed against the
full child and parent sets. -/
def annotate_thresholds (OVERLAPS : List ℚ) (child parents : List BedRec) :
    List (ℚ × List Bool) :=
  OVERLAPS.map (fun f => (f, observed_in_parent_ovlap f child parents))

end CNV

namespace CNV

/-- Boolean extensionality via the coerced propositions. -/
theorem bool_ext {x y : Bool} (h : x = true ↔ y = true) : x = y := by
  cases x <;> cases y <;> simp_all

/-- Membership in the relational product. -/
theorem mem_crossJoin {p : Rec × Rec} {l₁ l₂ : List Rec} :
    p ∈ crossJoin l₁ l₂ ↔ p.1 ∈ l₁ ∧ p.2 ∈ l₂ := by
  cases p
  simp [crossJoin, List.mem_flatMap, List.mem_map]

/-- A pair survives until the final projection of `flag_overlaps` exactly
when both members come from their collections and the pair is a
candidate. -/
theorem mem_flag_rows {p : Rec × Rec} {df_a df_b : List Rec} :
    p ∈ (overlaps_df df_a df_b).filter (fun q => decide (0 < overlap_len q.1 q.2)) ↔
    p.1 ∈ df_a ∧ p.2 ∈ df_b ∧ candidate p.1 p.2 = true := by
  rw [List.mem_filter, overlaps_df, List.mem_filter, mem_crossJoin, candidate,
    Bool.and_eq_true]
  tauto

/-- Distinct rowids identify records within a collection. -/
theorem rowid_inj {l : List Rec} (h : (l.map Rec.rowid).Nodup)
    {x y : Rec} (hx : x ∈ l) (hy : y ∈ l) (hxy : x.rowid = y.rowid) : x = y :=
  List.inj_on_of_nodup_map h hx hy hxy

/-- The coordinate flag of a record of A only takes the values 0 and 1. -/
theorem flagA_cases (df_a df_b : List Rec) (a : Rec) :
    CNV_based_overlap_A df_a df_b a = 0 ∨ CNV_based_overlap_A df_a df_b a = 1 := by
  unfold CNV_based_overlap_A
  split <;> simp

/-- The coordinate flag of a record of B only takes the values 0 and 1. -/
theorem flagB_cases (df_a df_b : List Rec) (b : Rec) :
    CNV_based_overlap_B df_a df_b b = 0 ∨ CNV_based_overlap_B df_a df_b b = 1 := by
  unfold CNV_based_overlap_B
  split <;> simp

/-- Existential characterisation of the flag of a record of A. -/
theorem flagA_eq_one_iff (df_a df_b : List Rec) (a : Rec) (ha : a ∈ df_a)
    (hnd : (df_a.map Rec.rowid).Nodup) :
    CNV_based_overlap_A df_a df_b a = 1 ↔
    ∃ b ∈ df_b, candidate a b = true ∧ reciprocal_overlap_flag a b = true := by
  unfold CNV_based_overlap_A
  have hsplit : (if (flag_overlaps df_a df_b).any (fun r => r.2.2 && (r.1 == a.rowid))
      then (1 : Nat) else 0) = 1 ↔
      (flag_overlaps df_a df_b).any (fun r => r.2.2 && (r.1 == a.rowid)) = true := by
    split <;> simp_all
  rw [hsplit, List.any_eq_true]
  constructor
  · rintro ⟨r, hr, hpred⟩
    unfold flag_overlaps at hr
    rw [List.mem_map] at hr
    obtain ⟨p, hp, rfl⟩ := hr
    rw [mem_flag_rows] at hp
    obtain ⟨hpa, hpb, hcand⟩ := hp
    simp only [Bool.and_eq_true, beq_iff_eq] at hpred
    obtain ⟨hflag, hid⟩ := hpred
    have hpe : p.1 = a := rowid_inj hnd hpa ha hid
    exact ⟨p.2, hpb, by rw [← hpe]; exact hcand, by rw [← hpe]; exact hflag⟩
  · rintro ⟨b, hb, hcand, hflag⟩
    refine ⟨(a.rowid, b.rowid, reciprocal_overlap_flag a b), ?_, ?_⟩
    · unfold flag_overlaps
      rw [List.mem_map]
      exact ⟨(a, b), mem_flag_rows.mpr ⟨ha, hb, hcand⟩, rfl⟩
    · simp [hflag]

/-- Existential characterisation of the flag of a record of B. -/
theorem flagB_eq_one_iff (df_a df_b : List Rec) (b : Rec) (hb : b ∈ df_b)
    (hnd : (df_b.map Rec.rowid).Nodup) :
    CNV_based_overlap_B df_a df_b b = 1 ↔
    ∃ a ∈ df_a, candidate a b = true ∧ reciprocal_overlap_flag a b = true := by
  unfold CNV_based_overlap_B
  have hsplit : (if (flag_overlaps df_a df_b).any (fun r => r.2.2 && (r.2.1 == b.rowid))
      then (1 : Nat) else 0) = 1 ↔
      (flag_overlaps df_a df_b).any (fun r => r.2.2 && (r.2.1 == b.rowid)) = true := by
    split <;> simp_all
  rw [hsplit, List.any_eq_true]
  constructor
  · rintro ⟨r, hr, hpred⟩
    unfold flag_overlaps at hr
    rw [List.mem_map] at hr
    obtain ⟨p, hp, rfl⟩ := hr
    rw [mem_flag_rows] at hp
    obtain ⟨hpa, hpb, hcand⟩ := hp
    simp only [Bool.and_eq_true, beq_iff_eq] at hpred
    obtain ⟨hflag, hid⟩ := hpred
    have hpe : p.2 = b := rowid_inj hnd hpb hb hid
    exact ⟨p.1, hpa, by rw [← hpe]; exact hcand, by rw [← hpe]; exact hflag⟩
  · rintro ⟨a, ha, hcand, hflag⟩
    refine ⟨(a.rowid, b.rowid, reciprocal_overlap_flag a b), ?_, ?_⟩
    · unfold flag_overlaps
      rw [List.mem_map]
      exact ⟨(a, b), mem_flag_rows.mpr ⟨ha, hb, hcand⟩, rfl⟩
    · simp [hflag]

/-- The join condition forces equality of all partition-key parts. -/
theorem joinOn_keys {a b : Rec} (h : joinOn a b = true) :
    a.SampleID = b.SampleID ∧ a.Chr = b.Chr ∧ a.Type' = b.Type' := by
  simp only [joinOn, Bool.and_eq_true, beq_iff_eq] at h
  tauto

/-- Candidacy forces equality of all partition-key parts. -/
theorem candidate_keys {a b : Rec} (h : candidate a b = true) :
    a.SampleID = b.SampleID ∧ a.Chr = b.Chr ∧ a.Type' = b.Type' := by
  simp only [candidate, Bool.and_eq_true] at h
  exact joinOn_keys h.1

/-- The overlap length is symmetric in the two records. -/
theorem overlap_len_comm (a b : Rec) : overlap_len a b = overlap_len b a := by
  simp [overlap_len, overlap_end, overlap_start, min_comm, max_comm]

/-- The two interval lengths are the same formula. -/
theorem len_b_eq_len_a (r : Rec) : len_b r = len_a r := rfl

/-- Candidacy is symmetric in the two records. -/
theorem candidate_symm (a b : Rec) : candidate a b = candidate b a := by
  apply bool_ext
  simp only [candidate, joinOn, Bool.and_eq_true, beq_iff_eq, decide_eq_true_eq,
    and_assoc]
  rw [overlap_len_comm]
  constructor
  · rintro ⟨h1, h2, h3, h4, h5, h6⟩
    exact ⟨h1.symm, h2.symm, h3.symm, h5, h4, h6⟩
  · rintro ⟨h1, h2, h3, h4, h5, h6⟩
    exact ⟨h1.symm, h2.symm, h3.symm, h5, h4, h6⟩

/-- The reciprocal-overlap decision is symmetric in the two records. -/
theorem reciprocal_symm (a b : Rec) :
    reciprocal_overlap_flag a b = reciprocal_overlap_flag b a := by
  apply bool_ext
  simp only [reciprocal_overlap_flag, Bool.and_eq_true, decide_eq_true_eq,
    len_b_eq_len_a]
  rw [overlap_len_comm]
  tauto

end CNV

namespace CNV

/-- The embedded comparison `len / 2 ≤ overlap` is the query's
`0.5 * len ≤ overlap` over exact rationals. -/
theorem mkRat_two_le_ofInt_iff (x y : ℤ) :
    mkRat x 2 ≤ Rat.ofInt y ↔ (0.5 : ℚ) * (x : ℚ) ≤ (y : ℚ) := by
  rw [Rat.mkRat_eq_divInt, Rat.divInt_eq_div, Rat.ofInt_eq_cast]
  push_cast
  rw [div_le_iff₀ (by norm_num : (0 : ℚ) < 2)]
  constructor <;> intro h <;> linarith

/-- The reciprocal decision, characterised by the spec's rational
inequalities. -/
theorem reciprocal_iff_rat (a b : Rec) :
    reciprocal_overlap_flag a b = true ↔
    ((0.5 : ℚ) * ((len_a a : ℤ) : ℚ) ≤ ((overlap_len a b : ℤ) : ℚ) ∧
     (0.5 : ℚ) * ((len_b b : ℤ) : ℚ) ≤ ((overlap_len a b : ℤ) : ℚ)) := by
  simp only [reciprocal_overlap_flag, Bool.and_eq_true, decide_eq_true_eq,
    mkRat_two_le_ofInt_iff]

/-- Cross-multiplying by the positive denominator expresses `f * L ≤ V`
with integers only. -/
theorem rat_cross_mul_iff (f : ℚ) (L V : ℤ) :
    f.num * L ≤ (f.den : ℤ) * V ↔ f * (L : ℚ) ≤ (V : ℚ) := by
  have hd : (0 : ℚ) < (f.den : ℚ) := by exact_mod_cast f.den_pos
  have hf : f * (L : ℚ) = (f.num : ℚ) * (L : ℚ) / (f.den : ℚ) := by
    rw [div_eq_mul_inv, mul_assoc, mul_comm (L : ℚ), ← mul_assoc, ← div_eq_mul_inv,
      Rat.num_div_den]
  rw [hf, div_le_iff₀ hd]
  constructor <;> intro h
  · have h' : ((f.num * L : ℤ) : ℚ) ≤ (((f.den : ℤ) * V : ℤ) : ℚ) := by exact_mod_cast h
    push_cast at h'
    linarith
  · have h' : ((f.num : ℤ) : ℚ) * (L : ℚ) ≤ ((f.den : ℤ) : ℚ) * ((V : ℤ) : ℚ) := by
      push_cast
      linarith
    exact_mod_cast h'

/-- Shape of any result row of the `flag_gene_matches` LEFT JOIN: it carries
the rowid of a row of `table_a`, and its flag is 1 exactly when built from a
matching row of `table_b`. -/
theorem mem_flag_gene {table_a table_b : List Rec} {r : Nat × Nat}
    (hr : r ∈ flag_gene_matches table_a table_b) :
    ∃ a ∈ table_a, r.1 = a.rowid ∧
      (r.2 = 0 ∨ (r.2 = 1 ∧ ∃ b ∈ table_b, geneJoin a b = true)) := by
  unfold flag_gene_matches at hr
  rw [List.mem_flatMap] at hr
  obtain ⟨a, ha, hmem⟩ := hr
  refine ⟨a, ha, ?_⟩
  split at hmem
  · simp only [List.mem_singleton] at hmem
    subst hmem
    exact ⟨rfl, Or.inl rfl⟩
  · rw [List.mem_map] at hmem
    obtain ⟨b, hb, hbr⟩ := hmem
    rw [List.mem_filter] at hb
    subst hbr
    exact ⟨rfl, Or.inr ⟨rfl, b, hb.1, hb.2⟩⟩

/-- A record whose own `Gene_ID` is NULL can never be matched by the
SQL equality join, so its gene flag is 0. -/
theorem gene_A_eq_zero_of_none (df_a df_b : List Rec) (a : Rec) (ha : a ∈ df_a)
    (hnd : (df_a.map Rec.rowid).Nodup) (hnull : a.Gene_ID = none) :
    gene_based_overlap_A df_a df_b a = 0 := by
  unfold gene_based_overlap_A
  have hno : ¬ ((flag_gene_matches df_a df_b).any
      (fun r => (r.2 == 1) && (r.1 == a.rowid)) = true) := by
    rw [List.any_eq_true]
    rintro ⟨r, hr, hpred⟩
    simp only [Bool.and_eq_true, beq_iff_eq] at hpred
    obtain ⟨h1, h2⟩ := hpred
    obtain ⟨a', ha', hid, hcase⟩ := mem_flag_gene hr
    have hae : a' = a := rowid_inj hnd ha' ha (by rw [← hid]; exact h2)
    subst hae
    rcases hcase with h0 | ⟨_, b, _, hj⟩
    · omega
    · rcases hgb : b.Gene_ID with _ | g <;>
        simp [geneJoin, sqlEq, hnull, hgb] at hj
  rw [if_neg hno]

end CNV

namespace CNV

/-- C1: within a shared partition key, a pair is a candidate (appears in the
`flag_overlaps` result) iff `overlap_len > 0` — touching half-open
intervals are excluded — and the reciprocal flag holds iff
`overlap_len ≥ 0.5·(a.End − a.Start)` and `overlap_len ≥ 0.5·(b.End − b.Start)`;
in particular [100, 200) against [150, 300) is a candidate that does not
qualify at the default threshold 0.5. -/
theorem c1_candidate_and_reciprocal :
    (∀ a b : Rec, a.SampleID = b.SampleID → a.Chr = b.Chr → a.Type' = b.Type' →
      ((candidate a b = true ↔ 0 < overlap_len a b) ∧
       (reciprocal_overlap_flag a b = true ↔
         ((0.5 : ℚ) * (((a.End - a.Start : ℤ)) : ℚ) ≤ ((overlap_len a b : ℤ) : ℚ) ∧
          (0.5 : ℚ) * (((b.End - b.Start : ℤ)) : ℚ) ≤ ((overlap_len a b : ℤ) : ℚ))))) ∧
    (candidate (⟨0, "S1", "chr1", 100, 200, "DEL", none⟩ : Rec)
        ⟨1, "S1", "chr1", 150, 300, "DEL", none⟩ = true ∧
     reciprocal_overlap_flag (⟨0, "S1", "chr1", 100, 200, "DEL", none⟩ : Rec)
        ⟨1, "S1", "chr1", 150, 300, "DEL", none⟩ = false) := by
  constructor
  · intro a b hs hc ht
    constructor
    · simp only [candidate, joinOn, hs, hc, ht, beq_self_eq_true, Bool.true_and,
        Bool.and_eq_true, decide_eq_true_eq]
      constructor
      · rintro ⟨-, h⟩
        exact h
      · intro h
        simp only [overlap_len, overlap_end, overlap_start] at h ⊢
        exact ⟨⟨by omega, by omega⟩, by omega⟩
    · rw [reciprocal_iff_rat]
      simp only [len_a, len_b]
  · exact ⟨by decide, by decide⟩

/-- Witness for C1 at the spec's worked example: the key hypotheses hold for
the concrete pair, the candidate test there reduces to `overlap_len > 0`,
and the overlap length is 50. -/
theorem c1_witness :
    (candidate (⟨0, "S1", "chr1", 100, 200, "DEL", none⟩ : Rec)
        ⟨1, "S1", "chr1", 150, 300, "DEL", none⟩ = true ↔
      0 < overlap_len (⟨0, "S1", "chr1", 100, 200, "DEL", none⟩ : Rec)
        ⟨1, "S1", "chr1", 150, 300, "DEL", none⟩) ∧
    overlap_len (⟨0, "S1", "chr1", 100, 200, "DEL", none⟩ : Rec)
        ⟨1, "S1", "chr1", 150, 300, "DEL", none⟩ = 50 :=
  ⟨(c1_candidate_and_reciprocal.1 ⟨0, "S1", "chr1", 100, 200, "DEL", none⟩
      ⟨1, "S1", "chr1", 150, 300, "DEL", none⟩ rfl rfl rfl).1, by decide⟩

/-- C2: the per-record flag of a record of A is 0 or 1 (never NA), and it is
1 exactly when some record of B forms a qualifying candidate pair with
it. -/
theorem c2_existential_flag (df_a df_b : List Rec) (a : Rec) (ha : a ∈ df_a)
    (hnd : (df_a.map Rec.rowid).Nodup) :
    (CNV_based_overlap_A df_a df_b a = 0 ∨ CNV_based_overlap_A df_a df_b a = 1) ∧
    (CNV_based_overlap_A df_a df_b a = 1 ↔
      ∃ b ∈ df_b, candidate a b = true ∧ reciprocal_overlap_flag a b = true) :=
  ⟨flagA_cases df_a df_b a, flagA_eq_one_iff df_a df_b a ha hnd⟩

/-- Witness for C2: a record with two candidate partners, exactly one of
which qualifies, is flagged 1. -/
theorem c2_witness :
    CNV_based_overlap_A [⟨0, "S1", "chr1", 100, 200, "DEL", none⟩]
      [⟨0, "S1", "chr1", 195, 400, "DEL", none⟩, ⟨1, "S1", "chr1", 90, 210, "DEL", none⟩]
      ⟨0, "S1", "chr1", 100, 200, "DEL", none⟩ = 1 ∧
    candidate (⟨0, "S1", "chr1", 100, 200, "DEL", none⟩ : Rec)
      ⟨0, "S1", "chr1", 195, 400, "DEL", none⟩ = true ∧
    reciprocal_overlap_flag (⟨0, "S1", "chr1", 100, 200, "DEL", none⟩ : Rec)
      ⟨0, "S1", "chr1", 195, 400, "DEL", none⟩ = false :=
  ⟨(c2_existential_flag [⟨0, "S1", "chr1", 100, 200, "DEL", none⟩]
      [⟨0, "S1", "chr1", 195, 400, "DEL", none⟩, ⟨1, "S1", "chr1", 90, 210, "DEL", none⟩]
      ⟨0, "S1", "chr1", 100, 200, "DEL", none⟩ (by decide) (by decide)).2.mpr
    ⟨⟨1, "S1", "chr1", 90, 210, "DEL", none⟩, by decide, by decide, by decide⟩,
   by decide, by decide⟩

end CNV

namespace CNV

/-- C3: every pair that enters the overlap test (the join rows of
`flag_overlaps`) shares `SampleID`, `Chr` and `Type`, and a record's flag
is unchanged when every record of the other collection outside its
partition key is removed: cross-partition records never influence it. -/
theorem c3_partition_isolation (df_a df_b : List Rec) :
    (∀ p ∈ overlaps_df df_a df_b,
      p.1.SampleID = p.2.SampleID ∧ p.1.Chr = p.2.Chr ∧ p.1.Type' = p.2.Type') ∧
    (∀ a ∈ df_a, (df_a.map Rec.rowid).Nodup →
      CNV_based_overlap_A df_a df_b a =
      CNV_based_overlap_A df_a (df_b.filter (fun b =>
        (a.SampleID == b.SampleID) && (a.Chr == b.Chr) && (a.Type' == b.Type'))) a) := by
  constructor
  · intro p hp
    rw [overlaps_df, List.mem_filter] at hp
    exact joinOn_keys hp.2
  · intro a ha hnd
    have h1 := flagA_eq_one_iff df_a df_b a ha hnd
    have h2 := flagA_eq_one_iff df_a (df_b.filter (fun b =>
      (a.SampleID == b.SampleID) && (a.Chr == b.Chr) && (a.Type' == b.Type'))) a ha hnd
    have hiff : CNV_based_overlap_A df_a df_b a = 1 ↔
        CNV_based_overlap_A df_a (df_b.filter (fun b =>
          (a.SampleID == b.SampleID) && (a.Chr == b.Chr) && (a.Type' == b.Type'))) a = 1 := by
      rw [h1, h2]
      constructor
      · rintro ⟨b, hb, hc, hf⟩
        refine ⟨b, ?_, hc, hf⟩
        rw [List.mem_filter]
        obtain ⟨hs, hch, ht⟩ := candidate_keys hc
        exact ⟨hb, by simp [hs, hch, ht]⟩
      · rintro ⟨b, hb, hc, hf⟩
        exact ⟨b, (List.mem_filter.mp hb).1, hc, hf⟩
    rcases flagA_cases df_a df_b a with h | h <;>
      rcases flagA_cases df_a (df_b.filter (fun b =>
        (a.SampleID == b.SampleID) && (a.Chr == b.Chr) && (a.Type' == b.Type'))) a
        with h' | h' <;>
      simp_all

/-- Witness for C3: a record's flag over a foreign-partition partner list is
the same as over the list with the foreign partition filtered away. -/
theorem c3_witness :
    CNV_based_overlap_A [⟨0, "S1", "chr1", 100, 200, "DEL", none⟩]
        [⟨0, "S2", "chr1", 100, 200, "DEL", none⟩]
        ⟨0, "S1", "chr1", 100, 200, "DEL", none⟩ =
      CNV_based_overlap_A [⟨0, "S1", "chr1", 100, 200, "DEL", none⟩]
        ([⟨0, "S2", "chr1", 100, 200, "DEL", none⟩].filter (fun b =>
          ((⟨0, "S1", "chr1", 100, 200, "DEL", none⟩ : Rec).SampleID == b.SampleID) &&
          ((⟨0, "S1", "chr1", 100, 200, "DEL", none⟩ : Rec).Chr == b.Chr) &&
          ((⟨0, "S1", "chr1", 100, 200, "DEL", none⟩ : Rec).Type' == b.Type')))
        ⟨0, "S1", "chr1", 100, 200, "DEL", none⟩ :=
  (c3_partition_isolation [⟨0, "S1", "chr1", 100, 200, "DEL", none⟩]
    [⟨0, "S2", "chr1", 100, 200, "DEL", none⟩]).2
    ⟨0, "S1", "chr1", 100, 200, "DEL", none⟩ (by decide) (by decide)

/-- C8: the candidate and qualifying decisions are symmetric in the two
records, and the flag of a record of B computed from the shared pair set
equals the flag computed from scratch with the collections swapped. -/
theorem c8_symmetry (df_a df_b : List Rec) :
    (∀ a b : Rec, candidate a b = candidate b a ∧
      reciprocal_overlap_flag a b = reciprocal_overlap_flag b a) ∧
    (∀ b ∈ df_b, (df_b.map Rec.rowid).Nodup →
      CNV_based_overlap_B df_a df_b b = CNV_based_overlap_A df_b df_a b) := by
  refine ⟨fun a b => ⟨candidate_symm a b, reciprocal_symm a b⟩, ?_⟩
  intro b hb hnd
  have h1 := flagB_eq_one_iff df_a df_b b hb hnd
  have h2 := flagA_eq_one_iff df_b df_a b hb hnd
  have hiff : CNV_based_overlap_B df_a df_b b = 1 ↔
      CNV_based_overlap_A df_b df_a b = 1 := by
    rw [h1, h2]
    constructor
    · rintro ⟨a, ha, hc, hf⟩
      exact ⟨a, ha, by rw [← candidate_symm]; exact hc,
        by rw [← reciprocal_symm]; exact hf⟩
    · rintro ⟨a, ha, hc, hf⟩
      exact ⟨a, ha, by rw [candidate_symm]; exact hc,
        by rw [reciprocal_symm]; exact hf⟩
  rcases flagB_cases df_a df_b b with h | h <;>
    rcases flagA_cases df_b df_a b with h' | h' <;>
    simp_all

/-- Witness for C8: on a concrete pair of collections, B's flag from the
shared pair set equals the recomputed flag with roles swapped. -/
theorem c8_witness :
    CNV_based_overlap_B [⟨0, "S1", "chr1", 100, 200, "DEL", none⟩]
        [⟨0, "S1", "chr1", 150, 300, "DEL", none⟩]
        ⟨0, "S1", "chr1", 150, 300, "DEL", none⟩ =
      CNV_based_overlap_A [⟨0, "S1", "chr1", 150, 300, "DEL", none⟩]
        [⟨0, "S1", "chr1", 100, 200, "DEL", none⟩]
        ⟨0, "S1", "chr1", 150, 300, "DEL", none⟩ :=
  (c8_symmetry [⟨0, "S1", "chr1", 100, 200, "DEL", none⟩]
    [⟨0, "S1", "chr1", 150, 300, "DEL", none⟩]).2
    ⟨0, "S1", "chr1", 150, 300, "DEL", none⟩ (by decide) (by decide)

/-- C9: a record with `End ≤ Start` can never belong to a candidate pair
(its overlap with any partner is nonpositive), so although it is not
removed from the input, its flag is 0 in either collection. -/
theorem c9_invalid_record_flags_zero (df_a df_b : List Rec) (r : Rec)
    (hr : r.End ≤ r.Start) :
    (∀ x : Rec, candidate r x = false ∧ candidate x r = false) ∧
    (r ∈ df_a → (df_a.map Rec.rowid).Nodup → CNV_based_overlap_A df_a df_b r = 0) ∧
    (r ∈ df_b → (df_b.map Rec.rowid).Nodup → CNV_based_overlap_B df_a df_b r = 0) := by
  have hfalse : ∀ x : Rec, candidate r x = false ∧ candidate x r = false := by
    intro x
    constructor <;>
    · rw [Bool.eq_false_iff]
      intro hc
      simp only [candidate, Bool.and_eq_true, decide_eq_true_eq, overlap_len,
        overlap_end, overlap_start] at hc
      omega
  refine ⟨hfalse, ?_, ?_⟩
  · intro hmem hnd
    rcases flagA_cases df_a df_b r with h | h
    · exact h
    · exfalso
      obtain ⟨b, -, hc, -⟩ := (flagA_eq_one_iff df_a df_b r hmem hnd).mp h
      rw [(hfalse b).1] at hc
      exact Bool.false_ne_true hc
  · intro hmem hnd
    rcases flagB_cases df_a df_b r with h | h
    · exact h
    · exfalso
      obtain ⟨a, -, hc, -⟩ := (flagB_eq_one_iff df_a df_b r hmem hnd).mp h
      rw [(hfalse a).2] at hc
      exact Bool.false_ne_true hc

/-- Witness for C9: an inverted record overlapping-in-coordinates with a
valid partner is never a candidate and its flag is 0. -/
theorem c9_witness :
    candidate (⟨0, "S1", "chr1", 200, 100, "DEL", none⟩ : Rec)
      ⟨0, "S1", "chr1", 100, 200, "DEL", none⟩ = false ∧
    CNV_based_overlap_A [⟨0, "S1", "chr1", 200, 100, "DEL", none⟩]
      [⟨0, "S1", "chr1", 100, 200, "DEL", none⟩]
      ⟨0, "S1", "chr1", 200, 100, "DEL", none⟩ = 0 :=
  ⟨((c9_invalid_record_flags_zero [⟨0, "S1", "chr1", 200, 100, "DEL", none⟩]
      [⟨0, "S1", "chr1", 100, 200, "DEL", none⟩]
      ⟨0, "S1", "chr1", 200, 100, "DEL", none⟩ (by decide)).1
      ⟨0, "S1", "chr1", 100, 200, "DEL", none⟩).1,
   (c9_invalid_record_flags_zero [⟨0, "S1", "chr1", 200, 100, "DEL", none⟩]
      [⟨0, "S1", "chr1", 100, 200, "DEL", none⟩]
      ⟨0, "S1", "chr1", 200, 100, "DEL", none⟩ (by decide)).2.1
      (by decide) (by decide)⟩

/-- C10: when the `Gene_ID` column is present in both collections, a record
whose own `Gene_ID` value is NULL receives gene flag `some 0` — never NA —
and in the both-columns-present branch no record of A receives NA at
all. -/
theorem c10_null_gene_is_zero (df_a df_b : List Rec) (a : Rec) (ha : a ∈ df_a)
    (hnd : (df_a.map Rec.rowid).Nodup) (hnull : a.Gene_ID = none) :
    gene_value_A df_a df_b true true a = some 0 ∧
    (∀ v ∈ geneFlagsA df_a df_b true true, v ≠ none) := by
  constructor
  · unfold gene_value_A
    rw [gene_A_eq_zero_of_none df_a df_b a ha hnd hnull]
    rfl
  · intro v hv
    rw [geneFlagsA, List.mem_map] at hv
    obtain ⟨x, -, hx⟩ := hv
    rw [← hx]
    simp [gene_value_A]

/-- Witness for C10: a NULL-gene record, in presence of a same-key partner
with a gene value, is flagged `some 0` (not NA). -/
theorem c10_witness :
    gene_value_A [⟨0, "S1", "chr1", 100, 200, "DEL", none⟩]
      [⟨0, "S1", "chr1", 100, 200, "DEL", some "GENE7"⟩] true true
      ⟨0, "S1", "chr1", 100, 200, "DEL", none⟩ = some 0 :=
  (c10_null_gene_is_zero [⟨0, "S1", "chr1", 100, 200, "DEL", none⟩]
    [⟨0, "S1", "chr1", 100, 200, "DEL", some "GENE7"⟩]
    ⟨0, "S1", "chr1", 100, 200, "DEL", none⟩ (by decide) (by decide) rfl).1

end CNV

namespace CNV

/-- C6: when `Gene_ID` is missing from either input, `main` sets every
record's gene flag in both collections to NA and both summaries omit the
gene-overlap section entirely (no gene counts or percentages are
computed), while the run still produces its full result. -/
theorem c6_missing_gene_column (df_a df_b : List Rec) (hasA hasB : Bool)
    (h : ¬(hasA = true ∧ hasB = true)) :
    (∀ v ∈ (mainRun df_a df_b hasA hasB).geneA, v = none) ∧
    (∀ v ∈ (mainRun df_a df_b hasA hasB).geneB, v = none) ∧
    (mainRun df_a df_b hasA hasB).summaryA.geneSection = none ∧
    (mainRun df_a df_b hasA hasB).summaryB.geneSection = none := by
  have hand : (hasA && hasB) = false := by
    cases hasA <;> cases hasB <;> simp_all
  have hA : ∀ v ∈ geneFlagsA df_a df_b hasA hasB, v = none := by
    intro v hv
    rw [geneFlagsA, List.mem_map] at hv
    obtain ⟨x, -, hx⟩ := hv
    rw [← hx]
    simp [gene_value_A, hand]
  have hB : ∀ v ∈ geneFlagsB df_a df_b hasA hasB, v = none := by
    intro v hv
    rw [geneFlagsB, List.mem_map] at hv
    obtain ⟨x, -, hx⟩ := hv
    rw [← hx]
    simp [gene_value_B, hand]
  have hanyA : (geneFlagsA df_a df_b hasA hasB).any (fun g => g.isSome) = false := by
    rw [List.any_eq_false]
    intro v hv
    simp [hA v hv]
  have hanyB : (geneFlagsB df_a df_b hasA hasB).any (fun g => g.isSome) = false := by
    rw [List.any_eq_false]
    intro v hv
    simp [hB v hv]
  exact ⟨hA, hB, by simp [mainRun, print_summary_one, hanyA],
    by simp [mainRun, print_summary_one, hanyB]⟩

/-- Witness for C6: with `Gene_ID` absent from B only, a run over non-empty
collections yields NA gene flags and summaries without a gene section. -/
theorem c6_witness :
    (∀ v ∈ (mainRun [⟨0, "S1", "chr1", 100, 200, "DEL", some "G1"⟩]
        [⟨0, "S1", "chr1", 100, 200, "DEL", none⟩] true false).geneA, v = none) ∧
    (mainRun [⟨0, "S1", "chr1", 100, 200, "DEL", some "G1"⟩]
        [⟨0, "S1", "chr1", 100, 200, "DEL", none⟩] true false).summaryA.geneSection
      = none :=
  ⟨(c6_missing_gene_column [⟨0, "S1", "chr1", 100, 200, "DEL", some "G1"⟩]
      [⟨0, "S1", "chr1", 100, 200, "DEL", none⟩] true false (by decide)).1,
   (c6_missing_gene_column [⟨0, "S1", "chr1", 100, 200, "DEL", some "G1"⟩]
      [⟨0, "S1", "chr1", 100, 200, "DEL", none⟩] true false (by decide)).2.2.1⟩

/-- C5 (code behaviour at the failing input): a record with `End ≤ Start`
participates in the run with flag 0 and stays in its collection, but no
diagnostic count of invalid records exists anywhere in the observable
output — the summary totals simply count it like any other record
(`total = 2` below), and the run completes with a full result. -/
theorem c5_invalid_record_run :
    mainRun
      [⟨0, "S1", "chr1", 200, 100, "DEL", none⟩, ⟨1, "S1", "chr1", 100, 200, "DEL", none⟩]
      [⟨0, "S1", "chr1", 100, 200, "DEL", none⟩] false false =
    { flagsA := [0, 1]
      flagsB := [1]
      geneA := [none, none]
      geneB := [none]
      summaryA := { total := 2, ovlp := 1, geneSection := none }
      summaryB := { total := 1, ovlp := 1, geneSection := none } } := by
  decide

end CNV

namespace CNV

/-- Assigning a column whose name is fresh appends it at the end. -/
theorem setCol_fresh (df : Frame) (name : String) (vals : List Cell)
    (h : ∀ c ∈ df, c.1 ≠ name) : setCol df name vals = df ++ [(name, vals)] := by
  unfold setCol
  have h' : ¬ (df.any (fun c => c.1 == name) = true) := by
    rw [List.any_eq_true]
    rintro ⟨c, hc, hbeq⟩
    exact h c hc (by simpa using hbeq)
  rw [if_neg h']

/-- Dropping a column distributes over concatenation. -/
theorem dropCol_append (df₁ df₂ : Frame) (name : String) :
    dropCol (df₁ ++ df₂) name = dropCol df₁ name ++ dropCol df₂ name := by
  simp [dropCol, List.filter_append]

/-- Dropping an absent column is the identity. -/
theorem dropCol_of_not_mem (df : Frame) (name : String) (h : ∀ c ∈ df, c.1 ≠ name) :
    dropCol df name = df := by
  rw [dropCol, List.filter_eq_self]
  intro c hc
  simp [beq_iff_eq, h c hc]

/-- The coordinate-flag column has one value per record of A. -/
theorem cnvFlagsA_length (df_a df_b : List Rec) :
    (cnvFlagsA df_a df_b).length = df_a.length := by
  simp [cnvFlagsA]

/-- The gene-flag column has one value per record of A. -/
theorem geneFlagsA_length (df_a df_b : List Rec) (hasA hasB : Bool) :
    (geneFlagsA df_a df_b hasA hasB).length = df_a.length := by
  simp [geneFlagsA]

/-- C7 (amended): provided no input column is named `rowid`,
`CNV_based_overlap` or `gene_based_overlap`, the saved frame is exactly the
input columns — names, values and order untouched — followed by the two
flag columns; every column still has one value per input row, and the
internal `rowid` column does not appear. -/
theorem c7_frame_effect (df : Frame) (rows_a rows_b : List Rec) (hasA hasB : Bool)
    (n : Nat) (hlen : rows_a.length = n) (hcols : ∀ c ∈ df, c.2.length = n)
    (h1 : ∀ c ∈ df, c.1 ≠ "rowid") (h2 : ∀ c ∈ df, c.1 ≠ "CNV_based_overlap")
    (h3 : ∀ c ∈ df, c.1 ≠ "gene_based_overlap") :
    annotate_frame df rows_a rows_b hasA hasB =
      df ++ [("CNV_based_overlap", (cnvFlagsA rows_a rows_b).map cellOfNat),
             ("gene_based_overlap", (geneFlagsA rows_a rows_b hasA hasB).map cellOfOptNat)] ∧
    (∀ c ∈ annotate_frame df rows_a rows_b hasA hasB, c.2.length = n) ∧
    (∀ c ∈ annotate_frame df rows_a rows_b hasA hasB, c.1 ≠ "rowid") := by
  have e1 := setCol_fresh df "rowid"
    ((List.range rows_a.length).map (fun i => Cell.int (Int.ofNat i))) h1
  have h2' : ∀ c ∈ df ++ [("rowid",
      (List.range rows_a.length).map (fun i => Cell.int (Int.ofNat i)))],
      c.1 ≠ "CNV_based_overlap" := by
    intro c hc
    rcases List.mem_append.mp hc with hmem | hmem
    · exact h2 c hmem
    · rw [List.mem_singleton] at hmem
      rw [hmem]
      simp
  have e2 := setCol_fresh _ "CNV_based_overlap"
    ((cnvFlagsA rows_a rows_b).map cellOfNat) h2'
  have h3' : ∀ c ∈ (df ++ [("rowid",
      (List.range rows_a.length).map (fun i => Cell.int (Int.ofNat i)))]) ++
      [("CNV_based_overlap", (cnvFlagsA rows_a rows_b).map cellOfNat)],
      c.1 ≠ "gene_based_overlap" := by
    intro c hc
    rcases List.mem_append.mp hc with hmem | hmem
    · rcases List.mem_append.mp hmem with hm | hm
      · exact h3 c hm
      · rw [List.mem_singleton] at hm
        rw [hm]
        simp
    · rw [List.mem_singleton] at hmem
      rw [hmem]
      simp
  have e3 := setCol_fresh _ "gene_based_overlap"
    ((geneFlagsA rows_a rows_b hasA hasB).map cellOfOptNat) h3'
  have hmain : annotate_frame df rows_a rows_b hasA hasB =
      df ++ [("CNV_based_overlap", (cnvFlagsA rows_a rows_b).map cellOfNat),
             ("gene_based_overlap", (geneFlagsA rows_a rows_b hasA hasB).map cellOfOptNat)] := by
    unfold annotate_frame
    rw [e1, e2, e3, dropCol_append, dropCol_append, dropCol_append,
      dropCol_of_not_mem df "rowid" h1]
    have hd1 : dropCol [("rowid",
        (List.range rows_a.length).map (fun i => Cell.int (Int.ofNat i)))] "rowid" = [] := by
      simp [dropCol]
    have hd2 : dropCol [("CNV_based_overlap",
        (cnvFlagsA rows_a rows_b).map cellOfNat)] "rowid" =
        [("CNV_based_overlap", (cnvFlagsA rows_a rows_b).map cellOfNat)] := by
      simp [dropCol]
    have hd3 : dropCol [("gene_based_overlap",
        (geneFlagsA rows_a rows_b hasA hasB).map cellOfOptNat)] "rowid" =
        [("gene_based_overlap", (geneFlagsA rows_a rows_b hasA hasB).map cellOfOptNat)] := by
      simp [dropCol]
    rw [hd1, hd2, hd3]
    simp
  refine ⟨hmain, ?_, ?_⟩
  · intro c hc
    rw [hmain] at hc
    rcases List.mem_append.mp hc with hmem | hmem
    · exact hcols c hmem
    · simp only [List.mem_cons, List.not_mem_nil, or_false] at hmem
      rcases hmem with hm | hm
      · rw [hm]
        simp [cnvFlagsA_length, hlen]
      · rw [hm]
        simp [geneFlagsA_length, hlen]
  · intro c hc
    rw [hmain] at hc
    rcases List.mem_append.mp hc with hmem | hmem
    · exact h1 c hmem
    · simp only [List.mem_cons, List.not_mem_nil, or_false] at hmem
      rcases hmem with hm | hm
      · rw [hm]
        simp
      · rw [hm]
        simp

/-- Witness for C7's amended statement on a concrete clean frame. -/
theorem c7_witness :
    annotate_frame [("SampleID", [Cell.str "S1"])]
        [⟨0, "S1", "chr1", 100, 200, "DEL", none⟩] [] false false =
      [("SampleID", [Cell.str "S1"])] ++
        [("CNV_based_overlap",
          (cnvFlagsA [⟨0, "S1", "chr1", 100, 200, "DEL", none⟩] []).map cellOfNat),
         ("gene_based_overlap",
          (geneFlagsA [⟨0, "S1", "chr1", 100, 200, "DEL", none⟩] [] false false).map
            cellOfOptNat)] ∧
    (∀ c ∈ annotate_frame [("SampleID", [Cell.str "S1"])]
        [⟨0, "S1", "chr1", 100, 200, "DEL", none⟩] [] false false, c.1 ≠ "rowid") :=
  ⟨(c7_frame_effect [("SampleID", [Cell.str "S1"])]
      [⟨0, "S1", "chr1", 100, 200, "DEL", none⟩] [] false false 1 (by decide)
      (by decide) (by decide) (by decide) (by decide)).1,
   (c7_frame_effect [("SampleID", [Cell.str "S1"])]
      [⟨0, "S1", "chr1", 100, 200, "DEL", none⟩] [] false false 1 (by decide)
      (by decide) (by decide) (by decide) (by decide)).2.2⟩

/-- Counterexample to C7 as universally stated: when the input itself has a
column named `rowid`, that original column is overwritten and then dropped,
so the original input columns are not a prefix of the output (the column
and its values are gone). -/
theorem c7_counterexample :
    (((annotate_frame [("rowid", [Cell.int 7]), ("SampleID", [Cell.str "S1"])]
        [⟨0, "S1", "chr1", 100, 200, "DEL", none⟩] [] false false).map Prod.fst).take 2 ≠
      ([("rowid", [Cell.int 7]), ("SampleID", [Cell.str "S1"])].map Prod.fst)) ∧
    ("rowid", [Cell.int 7]) ∉
      annotate_frame [("rowid", [Cell.int 7]), ("SampleID", [Cell.str "S1"])]
        [⟨0, "S1", "chr1", 100, 200, "DEL", none⟩] [] false false := by
  constructor
  · decide
  · decide

end CNV

namespace CNV

/-- C4: the threshold loop carries each requested fraction `f` to its own
column computed by the same pure function of `f`, the child set and the
parent set — independent of which other thresholds were requested — and,
per record, that column is the existential flag: the reciprocal test at
`f` (characterised by the spec's rational inequalities) against the full
parent set. -/
theorem c4_independent_thresholds (OVERLAPS : List ℚ) (child parents : List BedRec)
    (f : ℚ) (hf : f ∈ OVERLAPS) :
    ((f, observed_in_parent_ovlap f child parents) ∈
      annotate_thresholds OVERLAPS child parents) ∧
    (∀ a b : BedRec, bed_reciprocal f a b = true ↔
      (a.Chr = b.Chr ∧ 0 < bedOverlap_len a b ∧
       f * ((a.End - a.Start : ℤ) : ℚ) ≤ ((bedOverlap_len a b : ℤ) : ℚ) ∧
       f * ((b.End - b.Start : ℤ) : ℚ) ≤ ((bedOverlap_len a b : ℤ) : ℚ))) ∧
    (∀ c ∈ child, (∀ c' ∈ child, bedID c' = bedID c → c' = c) →
      (((bedtools_intersect f child parents).map bedID).contains (bedID c) = true ↔
        ∃ p ∈ parents, bed_reciprocal f c p = true)) := by
  refine ⟨?_, ?_, ?_⟩
  · unfold annotate_thresholds
    exact List.mem_map_of_mem _ hf
  · intro a b
    simp only [bed_reciprocal, Bool.and_eq_true, beq_iff_eq, decide_eq_true_eq,
      rat_cross_mul_iff, and_assoc]
  · intro c hc hinj
    have hm : ((bedtools_intersect f child parents).map bedID).contains (bedID c) = true ↔
        bedID c ∈ (bedtools_intersect f child parents).map bedID := List.elem_iff
    rw [hm, List.mem_map]
    constructor
    · rintro ⟨c', hc', hid⟩
      unfold bedtools_intersect at hc'
      rw [List.mem_filter] at hc'
      obtain ⟨hc'mem, hany⟩ := hc'
      have hce : c' = c := hinj c' hc'mem hid
      subst hce
      rw [List.any_eq_true] at hany
      obtain ⟨p, hp, hrec⟩ := hany
      exact ⟨p, hp, hrec⟩
    · rintro ⟨p, hp, hrec⟩
      refine ⟨c, ?_, rfl⟩
      unfold bedtools_intersect
      rw [List.mem_filter]
      exact ⟨hc, List.any_eq_true.mpr ⟨p, hp, hrec⟩⟩

/-- Witness for C4 at fractions 1/2 and 1/10: the 1/2 column of the loop is
present, and the concrete child interval is flagged because one parent
interval qualifies. -/
theorem c4_witness :
    ((mkRat 1 2, observed_in_parent_ovlap (mkRat 1 2)
        [⟨"S1_chr1", 100, 200⟩] [⟨"S1_chr1", 120, 220⟩]) ∈
      annotate_thresholds [mkRat 1 2, mkRat 1 10]
        [⟨"S1_chr1", 100, 200⟩] [⟨"S1_chr1", 120, 220⟩]) ∧
    ((bedtools_intersect (mkRat 1 2) [⟨"S1_chr1", 100, 200⟩]
        [⟨"S1_chr1", 120, 220⟩]).map bedID).contains
      (bedID ⟨"S1_chr1", 100, 200⟩) = true :=
  ⟨(c4_independent_thresholds [mkRat 1 2, mkRat 1 10]
      [⟨"S1_chr1", 100, 200⟩] [⟨"S1_chr1", 120, 220⟩] (mkRat 1 2) (by decide)).1,
   ((c4_independent_thresholds [mkRat 1 2, mkRat 1 10]
      [⟨"S1_chr1", 100, 200⟩] [⟨"S1_chr1", 120, 220⟩] (mkRat 1 2) (by decide)).2.2
      ⟨"S1_chr1", 100, 200⟩ (by decide) (by decide)).mpr
    ⟨⟨"S1_chr1", 120, 220⟩, by decide, by decide⟩⟩

end CNV
